import Mathlib

/-!
Shallow embedding of the frame lifecycle / GPU synchronization core of the
l-system-visualizer renderer (`src/Renderer.cpp`, `src/Renderer.h`, the
unnamed renderer variants, and `src/main.cpp`).

GPU object handles are modelled as natural numbers drawn from a fresh-handle
counter (`nextHandle`), mirroring the driver returning distinct new objects
from each `vkCreate*` call.  Each embedded member function returns the list
of device calls it issues (`Op`) next to the state it leaves behind, so that
ordering / counting properties of the source's call sequences become list
properties.  `VK_CHECK(expr)` in the source throws `std::runtime_error` on
any result other than `VK_SUCCESS`; this is embedded as an `Except` error
which, as in `main.cpp`, terminates the process.
-/

namespace LSV

/-- The `VkResult` codes distinguished by the renderer's control flow. -/
inductive VkResult where
  | success
  | suboptimalKHR
  | errorOutOfDateKHR
  | timeout
  | errorDeviceLost
  | errorOutOfHostMemory
deriving DecidableEq, Repr

/-- The `VkImageLayout` values the renderer transitions between. -/
inductive VkImageLayout where
  | undefined
  | general
  | colorAttachmentOptimal
  | shaderReadOnlyOptimal
  | transferSrcOptimal
  | transferDstOptimal
  | presentSrcKHR
deriving DecidableEq, Repr

/-- `constexpr unsigned int FRAMES_IN_FLIGHT = 2;` (Renderer.h). -/
def FRAMES_IN_FLIGHT : Nat := 2

/-- Vulkan constant `VK_REMAINING_MIP_LEVELS` (all remaining mip levels). -/
def VK_REMAINING_MIP_LEVELS : Nat := 4294967295

/-- Vulkan constant `VK_REMAINING_ARRAY_LAYERS` (all remaining layers). -/
def VK_REMAINING_ARRAY_LAYERS : Nat := 4294967295

/-- Vulkan constant `VK_IMAGE_ASPECT_COLOR_BIT`. -/
def VK_IMAGE_ASPECT_COLOR_BIT : Nat := 1

/-- Vulkan constant `VK_PIPELINE_STAGE_ALL_COMMANDS_BIT`. -/
def VK_PIPELINE_STAGE_ALL_COMMANDS_BIT : Nat := 65536

/-- Vulkan constant `VK_ACCESS_2_MEMORY_READ_BIT`. -/
def VK_ACCESS_2_MEMORY_READ_BIT : Nat := 32768

/-- Vulkan constant `VK_ACCESS_2_MEMORY_WRITE_BIT`. -/
def VK_ACCESS_2_MEMORY_WRITE_BIT : Nat := 65536

/-- `VkImageSubresourceRange`, the fields set by `createSubresourceRange`. -/
structure VkImageSubresourceRange where
  aspectMask : Nat
  baseMipLevel : Nat
  levelCount : Nat
  baseArrayLayer : Nat
  layerCount : Nat
deriving DecidableEq, Repr

/-- `Renderer::createSubresourceRange` (Renderer.cpp lines 717-728): the
whole-resource range starting at mip 0 / layer 0 and covering all
remaining mip levels and array layers. -/
def createSubresourceRange (aspectFlags : Nat) : VkImageSubresourceRange :=
  { aspectMask := aspectFlags
    baseMipLevel := 0
    levelCount := VK_REMAINING_MIP_LEVELS
    baseArrayLayer := 0
    layerCount := VK_REMAINING_ARRAY_LAYERS }

/-- `VkImageMemoryBarrier2`, the fields set by `transitionImageLayout`. -/
structure VkImageMemoryBarrier2 where
  srcStageMask : Nat
  srcAccessMask : Nat
  dstStageMask : Nat
  dstAccessMask : Nat
  oldLayout : VkImageLayout
  newLayout : VkImageLayout
  image : Nat
  subresourceRange : VkImageSubresourceRange
deriving DecidableEq, Repr

/-- `VkDependencyInfo` as filled by `transitionImageLayout`: one image
memory barrier. -/
structure VkDependencyInfo where
  imageMemoryBarrierCount : Nat
  barrier : VkImageMemoryBarrier2
deriving DecidableEq, Repr

/-- `Renderer::transitionImageLayout` (Renderer.cpp lines 730-751): the
barrier description built from `(image, oldLayout, newLayout)` and handed
to `vkCmdPipelineBarrier2`. -/
def transitionImageLayout (image : Nat) (oldLayout newLayout : VkImageLayout) :
    VkDependencyInfo :=
  { imageMemoryBarrierCount := 1
    barrier :=
      { srcStageMask := VK_PIPELINE_STAGE_ALL_COMMANDS_BIT
        srcAccessMask := VK_ACCESS_2_MEMORY_WRITE_BIT
        dstStageMask := VK_PIPELINE_STAGE_ALL_COMMANDS_BIT
        dstAccessMask := VK_ACCESS_2_MEMORY_WRITE_BIT ||| VK_ACCESS_2_MEMORY_READ_BIT
        oldLayout := oldLayout
        newLayout := newLayout
        image := image
        subresourceRange := createSubresourceRange VK_IMAGE_ASPECT_COLOR_BIT } }

/-- Device calls issued by the renderer, recorded as a trace. -/
inductive Op where
  | deviceWaitIdle
  | getWindowSize
  | createSwapchainKHR (h : Nat)
  | createImageView (h : Nat)
  | createSemaphore (h : Nat)
  | createCommandPool (h : Nat)
  | allocateCommandBuffers (h : Nat)
  | createFence (h : Nat) (signaled : Bool)
  | createImage (h : Nat)
  | createSampler (h : Nat)
  | createBuffer (h : Nat)
  | getBufferDeviceAddress (h : Nat)
  | memcpyToStaging (h : Nat)
  | destroySwapchainKHR (h : Nat)
  | destroyImageView (h : Nat)
  | destroySemaphore (h : Nat)
  | destroyCommandPool (h : Nat)
  | destroyFence (h : Nat)
  | destroyImage (h : Nat)
  | destroySampler (h : Nat)
  | destroyBuffer (h : Nat)
  | waitForFences (h : Nat)
  | resetFences (h : Nat)
  | acquireNextImage (signalSem : Nat)
  | resetCommandBuffer (h : Nat)
  | beginCommandBuffer (h : Nat)
  | cmdPipelineBarrier2 (cmd : Nat) (d : VkDependencyInfo)
  | cmdClearColorImage (cmd : Nat) (image : Nat)
  | cmdBeginRendering (cmd : Nat)
  | cmdBindPipeline (cmd : Nat)
  | cmdSetViewport (cmd : Nat)
  | cmdSetScissor (cmd : Nat)
  | cmdDraw (cmd : Nat)
  | cmdEndRendering (cmd : Nat)
  | cmdRenderImGuiDrawData (cmd : Nat)
  | cmdBlitImage2 (cmd : Nat) (src : Nat) (dst : Nat)
  | cmdCopyBuffer (cmd : Nat) (src : Nat) (dst : Nat)
  | endCommandBuffer (h : Nat)
  | queueSubmit (cmd : Nat) (waitSems : List Nat) (signalSems : List Nat) (fence : Nat)
  | queuePresent (waitSems : List Nat) (imageIndex : Nat)
deriving DecidableEq, Repr

/-- `struct FrameData`: one frame slot's command pool, command buffer,
image-available semaphore and commands-complete fence (handles). -/
structure FrameData where
  commandPool : Nat
  commandBuffer : Nat
  imageAvailableSemaphore : Nat
  commandsCompleteFence : Nat
deriving DecidableEq, Repr

/-- The `Renderer` members the embedded core reads and writes.
`signaledFences` records which fence handles the host would currently
observe as signaled (fences created with `VK_FENCE_CREATE_SIGNALED_BIT`
enter it; `vkResetFences` removes); `nextHandle` is the fresh-handle supply
standing for the driver returning new distinct objects. -/
structure Renderer where
  frameNumber : Nat
  isInitialized : Bool
  swapchain : Nat
  swapchainImages : List Nat
  swapchainImageViews : List Nat
  renderFinishedSemaphores : List Nat
  swapchainStale : Bool
  frames : List FrameData
  signaledFences : List Nat
  immediateCmdFence : Nat
  immediateCmdPool : Nat
  immediateCmdBuffer : Nat
  mainDrawImage : Nat
  sceneDrawImage : Nat
  nextHandle : Nat
deriving DecidableEq, Repr

/-- `std::vector::resize(n)`: keep the first `n` elements, pad with
value-initialized handles (`VK_NULL_HANDLE`, i.e. `0`) when growing. -/
def listResize (l : List Nat) (n : Nat) : List Nat :=
  if n ≤ l.length then l.take n else l ++ List.replicate (n - l.length) 0

/-- The semaphore-creation loop of `Renderer::createSwapchain`
(Renderer.cpp lines 638-646), transcribed verbatim: for each
`i < swapchainImages.size()` it creates a semaphore into
`renderFinishedSemaphores[i]` and then also does
`renderFinishedSemaphores.push_back(renderFinishedSemaphores[i])`.
`remaining` is `count - i`. -/
def semLoopGo : Nat → Nat → List Nat → Nat → List Op × List Nat × Nat
  | 0, _, sems, next => ([], sems, next)
  | remaining + 1, i, sems, next =>
      let sems1 := sems.set i next
      let sems2 := sems1 ++ [sems1.getD i 0]
      let r := semLoopGo remaining (i + 1) sems2 (next + 1)
      (Op.createSemaphore next :: r.1, r.2)

/-- `Renderer::createSwapchain` (Renderer.cpp lines 615-647): builds the
chain sized by the surface, stores the driver-provided images and views,
resizes `renderFinishedSemaphores` to the image count and runs the
semaphore loop.  `numImages` is the image count the driver chose for the
new chain. -/
def createSwapchain (s : Renderer) (numImages : Nat) : List Op × Renderer :=
  let chainHandle := s.nextHandle
  let images := (List.range numImages).map (fun i => s.nextHandle + 1 + i)
  let views := (List.range numImages).map (fun i => s.nextHandle + 1 + numImages + i)
  let next0 := s.nextHandle + 1 + 2 * numImages
  let sems0 := listResize s.renderFinishedSemaphores numImages
  let loopResult := semLoopGo numImages 0 sems0 next0
  (Op.createSwapchainKHR chainHandle :: (views.map Op.createImageView ++ loopResult.1),
   { s with
      swapchain := chainHandle
      swapchainImages := images
      swapchainImageViews := views
      renderFinishedSemaphores := loopResult.2.1
      nextHandle := loopResult.2.2 })

/-- `Renderer::destroySwapchain` (Renderer.cpp lines 665-672): for each
image index destroy its view and its semaphore, then destroy the chain
handle.  The C++ leaves the member vectors holding the (dangling)
handles, so the state is returned unchanged. -/
def destroySwapchain (s : Renderer) : List Op × Renderer :=
  (((List.range s.swapchainImages.length).map (fun i =>
      [Op.destroyImageView (s.swapchainImageViews.getD i 0),
       Op.destroySemaphore (s.renderFinishedSemaphores.getD i 0)])).flatten
    ++ [Op.destroySwapchainKHR s.swapchain], s)

/-- One iteration of the `Renderer::initFrameDatas` loop (Renderer.cpp
lines 688-706): create a command pool, allocate its command buffer,
create the image-available semaphore and create the commands-complete
fence with `VK_FENCE_CREATE_SIGNALED_BIT` set. -/
def initFrameSlot (next : Nat) : List Op × FrameData × Nat :=
  ([Op.createCommandPool next, Op.allocateCommandBuffers (next + 1),
    Op.createSemaphore (next + 2), Op.createFence (next + 3) true],
   { commandPool := next
     commandBuffer := next + 1
     imageAvailableSemaphore := next + 2
     commandsCompleteFence := next + 3 },
   next + 4)

/-- `Renderer::initFrameDatas` (Renderer.cpp lines 674-707): create the
`FRAMES_IN_FLIGHT = 2` frame slots; every slot fence is created already
signaled, so it enters `signaledFences`. -/
def initFrameDatas (s : Renderer) : List Op × Renderer :=
  let slot0 := initFrameSlot s.nextHandle
  let slot1 := initFrameSlot slot0.2.2
  (slot0.1 ++ slot1.1,
   { s with
      frames := [slot0.2.1, slot1.2.1]
      signaledFences :=
        slot0.2.1.commandsCompleteFence :: slot1.2.1.commandsCompleteFence ::
          s.signaledFences
      nextHandle := slot1.2.2 })

/-- `Renderer::destroyFrameDatas` (Renderer.cpp lines 709-715): destroy
each slot's pool, semaphore and fence.  Destroyed fences leave the
signaled set; as in the C++, the `frames` array keeps its values. -/
def destroyFrameDatas (s : Renderer) : List Op × Renderer :=
  ((s.frames.map (fun f =>
      [Op.destroyCommandPool f.commandPool,
       Op.destroySemaphore f.imageAvailableSemaphore,
       Op.destroyFence f.commandsCompleteFence])).flatten,
   { s with
      signaledFences := s.signaledFences.filter (fun h =>
        s.frames.all (fun f => f.commandsCompleteFence ≠ h)) })

/-- `Renderer::rebuildSwapchain` (Renderer.cpp lines 649-663): full
device-idle wait, destroy the frame slots and the chain, read the window
size, build the new chain (the driver picks `numImages` images) and new
frame slots, then clear `swapchainStale`. -/
def rebuildSwapchain (s : Renderer) (numImages : Nat) : List Op × Renderer :=
  let df := destroyFrameDatas s
  let ds := destroySwapchain df.2
  let cs := createSwapchain ds.2 numImages
  let ifd := initFrameDatas cs.2
  (Op.deviceWaitIdle :: (df.1 ++ ds.1 ++ (Op.getWindowSize :: (cs.1 ++ ifd.1))),
   { ifd.2 with swapchainStale := false })

/-- `Renderer::initImmediateCommands` (Renderer.cpp lines 390-414): the
dedicated fence (created unsignaled: `fenceInfo` has no flags), command
pool and command buffer of the immediate-submission channel. -/
def initImmediateCommands (s : Renderer) : List Op × Renderer :=
  ([Op.createFence s.nextHandle false, Op.createCommandPool (s.nextHandle + 1),
    Op.allocateCommandBuffers (s.nextHandle + 2)],
   { s with
      immediateCmdFence := s.nextHandle
      immediateCmdPool := s.nextHandle + 1
      immediateCmdBuffer := s.nextHandle + 2
      nextHandle := s.nextHandle + 3 })

/-- `Renderer::immediateSubmit` (Renderer.cpp lines 416-444): reset the
dedicated fence and command buffer, begin recording, run the supplied
callback against the dedicated command buffer, end recording, submit with
the dedicated fence (no wait or signal semaphores) and finally
`vkWaitForFences` on that fence before returning.  The returned list is
the sequence of device calls of the call in program order; the wait is
the last call before `immediateSubmit` returns. -/
def immediateSubmit (s : Renderer) (callback : Nat → List Op) : List Op :=
  Op.resetFences s.immediateCmdFence ::
  Op.resetCommandBuffer s.immediateCmdBuffer ::
  Op.beginCommandBuffer s.immediateCmdBuffer ::
  (callback s.immediateCmdBuffer ++
   [Op.endCommandBuffer s.immediateCmdBuffer,
    Op.queueSubmit s.immediateCmdBuffer [] [] s.immediateCmdFence,
    Op.waitForFences s.immediateCmdFence])

/-- `Renderer::createDrawImages` (Renderer.cpp lines 498-604): create the
main and scene draw images with their views and the scene sampler, then
transition the scene image via `immediateSubmit`. -/
def createDrawImages (s : Renderer) : List Op × Renderer :=
  let mainImg := s.nextHandle
  let sceneImg := s.nextHandle + 2
  let s1 := { s with
                mainDrawImage := mainImg
                sceneDrawImage := sceneImg
                nextHandle := s.nextHandle + 5 }
  ([Op.createImage mainImg, Op.createImageView (mainImg + 1),
    Op.createImage sceneImg, Op.createImageView (sceneImg + 1),
    Op.createSampler (sceneImg + 2)]
   ++ immediateSubmit s1 (fun cmd =>
        [Op.cmdPipelineBarrier2 cmd
          (transitionImageLayout sceneImg VkImageLayout.undefined
            VkImageLayout.shaderReadOnlyOptimal)]),
   s1)

/-- `Renderer::uploadMesh` (unnamed renderer variant, part_001 lines
894-950): create the vertex, index and staging buffers, fill the staging
buffer, copy both regions inside one `immediateSubmit`, and destroy the
staging buffer after `immediateSubmit` has returned. -/
def uploadMesh (s : Renderer) : List Op :=
  let vertexBuffer := s.nextHandle
  let indexBuffer := s.nextHandle + 1
  let staging := s.nextHandle + 2
  [Op.createBuffer vertexBuffer, Op.createBuffer indexBuffer,
   Op.getBufferDeviceAddress vertexBuffer, Op.createBuffer staging,
   Op.memcpyToStaging staging]
  ++ immediateSubmit s (fun cmd =>
       [Op.cmdCopyBuffer cmd staging vertexBuffer,
        Op.cmdCopyBuffer cmd staging indexBuffer])
  ++ [Op.destroyBuffer staging]

/-- `Renderer::getCurrentFrame` (Renderer.h lines 78-80):
`frames[frameNumber % FRAMES_IN_FLIGHT]`. -/
def getCurrentFrame (s : Renderer) : FrameData :=
  s.frames.getD (s.frameNumber % FRAMES_IN_FLIGHT) ⟨0, 0, 0, 0⟩

/-- Host-observed result of `vkWaitForFences`: waiting on a fence that is
already signaled returns `VK_SUCCESS` at once; otherwise the result is
whatever the device produces (`fallback`), e.g. success later or
`VK_TIMEOUT`. -/
def waitForFencesModel (s : Renderer) (fence : Nat) (fallback : VkResult) : VkResult :=
  if s.signaledFences.contains fence then VkResult.success else fallback

/-- The results the device/driver produces for the calls of one
`Renderer::draw` invocation, together with the image index that
`vkAcquireNextImageKHR` writes. -/
structure DrawEnv where
  waitFencesResult : VkResult
  resetFencesResult : VkResult
  acquireResult : VkResult
  acquiredImageIndex : Nat
  resetCommandBufferResult : VkResult
  beginCommandBufferResult : VkResult
  endCommandBufferResult : VkResult
  queueSubmitResult : VkResult
  presentResult : VkResult
deriving DecidableEq, Repr

/-- The command-recording sequence of `Renderer::draw` (Renderer.cpp lines
197-299), in recording order: render the scene image, render the gui into
the main image, then blit the main image onto the acquired presentable
image and make it presentable. -/
def drawRecordOps (cmd sceneImg mainImg swapImg : Nat) : List Op :=
  [Op.cmdPipelineBarrier2 cmd
     (transitionImageLayout sceneImg VkImageLayout.undefined VkImageLayout.general),
   Op.cmdClearColorImage cmd sceneImg,
   Op.cmdPipelineBarrier2 cmd
     (transitionImageLayout sceneImg VkImageLayout.general
       VkImageLayout.colorAttachmentOptimal),
   Op.cmdBeginRendering cmd,
   Op.cmdBindPipeline cmd,
   Op.cmdSetViewport cmd,
   Op.cmdSetScissor cmd,
   Op.cmdDraw cmd,
   Op.cmdEndRendering cmd,
   Op.cmdPipelineBarrier2 cmd
     (transitionImageLayout sceneImg VkImageLayout.colorAttachmentOptimal
       VkImageLayout.shaderReadOnlyOptimal),
   Op.cmdPipelineBarrier2 cmd
     (transitionImageLayout mainImg VkImageLayout.undefined VkImageLayout.general),
   Op.cmdClearColorImage cmd mainImg,
   Op.cmdPipelineBarrier2 cmd
     (transitionImageLayout mainImg VkImageLayout.general
       VkImageLayout.colorAttachmentOptimal),
   Op.cmdBeginRendering cmd,
   Op.cmdRenderImGuiDrawData cmd,
   Op.cmdEndRendering cmd,
   Op.cmdPipelineBarrier2 cmd
     (transitionImageLayout mainImg VkImageLayout.colorAttachmentOptimal
       VkImageLayout.transferSrcOptimal),
   Op.cmdPipelineBarrier2 cmd
     (transitionImageLayout swapImg VkImageLayout.undefined
       VkImageLayout.transferDstOptimal),
   Op.cmdBlitImage2 cmd mainImg swapImg,
   Op.cmdPipelineBarrier2 cmd
     (transitionImageLayout swapImg VkImageLayout.transferDstOptimal
       VkImageLayout.presentSrcKHR)]

/-- `Renderer::draw` (Renderer.cpp lines 165-335).  A `VK_CHECK` whose
result is not `VK_SUCCESS` throws: modelled as `Except.error` (the trace
issued up to that point is still returned).  An acquisition result of
`VK_SUBOPTIMAL_KHR` or `VK_ERROR_OUT_OF_DATE_KHR` sets `swapchainStale`
and returns early; every other acquisition result falls through to
recording.  A suboptimal/out-of-date presentation result sets
`swapchainStale`; `frameNumber` is incremented at the end. -/
def draw (s : Renderer) (dr : DrawEnv) : List Op × Except VkResult Renderer :=
  let currentFrame := getCurrentFrame s
  let waitRes := waitForFencesModel s currentFrame.commandsCompleteFence dr.waitFencesResult
  let t0 := [Op.waitForFences currentFrame.commandsCompleteFence]
  if waitRes ≠ VkResult.success then (t0, Except.error waitRes) else
  let s1 := { s with
                signaledFences := s.signaledFences.filter
                  (fun h => h ≠ currentFrame.commandsCompleteFence) }
  let t1 := t0 ++ [Op.resetFences currentFrame.commandsCompleteFence]
  if dr.resetFencesResult ≠ VkResult.success then (t1, Except.error dr.resetFencesResult) else
  let t2 := t1 ++ [Op.acquireNextImage currentFrame.imageAvailableSemaphore]
  if dr.acquireResult = VkResult.suboptimalKHR ∨
     dr.acquireResult = VkResult.errorOutOfDateKHR then
    (t2, Except.ok { s1 with swapchainStale := true })
  else
  let idx := dr.acquiredImageIndex
  let cmd := currentFrame.commandBuffer
  let t3 := t2 ++ [Op.resetCommandBuffer cmd]
  if dr.resetCommandBufferResult ≠ VkResult.success then
    (t3, Except.error dr.resetCommandBufferResult) else
  let t4 := t3 ++ [Op.beginCommandBuffer cmd]
  if dr.beginCommandBufferResult ≠ VkResult.success then
    (t4, Except.error dr.beginCommandBufferResult) else
  let t5 := t4 ++ drawRecordOps cmd s.sceneDrawImage s.mainDrawImage
              (s.swapchainImages.getD idx 0)
  let t6 := t5 ++ [Op.endCommandBuffer cmd]
  if dr.endCommandBufferResult ≠ VkResult.success then
    (t6, Except.error dr.endCommandBufferResult) else
  let sig := s.renderFinishedSemaphores.getD idx 0
  let t7 := t6 ++ [Op.queueSubmit cmd [currentFrame.imageAvailableSemaphore] [sig]
              currentFrame.commandsCompleteFence]
  if dr.queueSubmitResult ≠ VkResult.success then
    (t7, Except.error dr.queueSubmitResult) else
  let t8 := t7 ++ [Op.queuePresent [sig] idx]
  let presentStale := dr.presentResult = VkResult.suboptimalKHR ∨
      dr.presentResult = VkResult.errorOutOfDateKHR
  (t8, Except.ok { s1 with
                     swapchainStale := if presentStale then true else s1.swapchainStale
                     frameNumber := s1.frameNumber + 1 })

/-- Drive `draw` over a sequence of per-frame device behaviours; a thrown
`VK_CHECK` error terminates the run (`none`), as the exception unwinds to
`main` which exits. -/
def runFrames (s : Renderer) : List DrawEnv → Option Renderer
  | [] => some s
  | dr :: rest =>
      match (draw s dr).2 with
      | Except.ok s1 => runFrames s1 rest
      | Except.error _ => none

/-- The body of one `Renderer::run` loop iteration (Renderer.cpp lines
343-387), restricted to the embedded core: if `swapchainStale` is set,
rebuild the chain (which clears the flag), then drive one frame.  Event
polling and gui construction are external collaborators. -/
def runLoopIteration (s : Renderer) (numImages : Nat) (dr : DrawEnv) :
    List Op × Except VkResult Renderer :=
  let pre := if s.swapchainStale then rebuildSwapchain s numImages else ([], s)
  let d := draw pre.2 dr
  (pre.1 ++ d.1, d.2)

/-- `Renderer::init` (Renderer.cpp lines 37-128): returns immediately when
already initialized; otherwise builds the chain, the immediate channel,
the draw images and the frame slots, then marks the renderer initialized.
Window/instance/device creation, imgui setup and pipeline construction
are outside the embedded core. -/
def init (s : Renderer) (numImages : Nat) : List Op × Renderer :=
  if s.isInitialized then ([], s)
  else
    let cs := createSwapchain s numImages
    let ic := initImmediateCommands cs.2
    let di := createDrawImages ic.2
    let ifd := initFrameDatas di.2
    (cs.1 ++ ic.1 ++ di.1 ++ ifd.1, { ifd.2 with isInitialized := true })

/-- `Renderer::cleanup` (Renderer.cpp lines 130-163): returns immediately
(performing no destruction) when not initialized; otherwise waits for
device idle and destroys the frame slots, chain, draw images and the
immediate channel.  As in the C++, the member fields keep their values
(`isInitialized` is not reset). -/
def cleanup (s : Renderer) : List Op × Renderer :=
  if s.isInitialized then
    let df := destroyFrameDatas s
    let ds := destroySwapchain df.2
    (Op.deviceWaitIdle :: (df.1 ++ ds.1 ++
      [Op.destroySampler (s.sceneDrawImage + 2),
       Op.destroyImageView (s.sceneDrawImage + 1),
       Op.destroyImage s.sceneDrawImage,
       Op.destroyImageView (s.mainDrawImage + 1),
       Op.destroyImage s.mainDrawImage,
       Op.destroyFence s.immediateCmdFence,
       Op.destroyCommandPool s.immediateCmdPool]),
     ds.2)
  else ([], s)

/-- The renderer object as constructed in `main.cpp`: all members default
/ empty, no GPU objects yet (`nextHandle` starts at `1` so that handle `0`
stands for `VK_NULL_HANDLE`). -/
def initialRenderer : Renderer :=
  { frameNumber := 0
    isInitialized := false
    swapchain := 0
    swapchainImages := []
    swapchainImageViews := []
    renderFinishedSemaphores := []
    swapchainStale := false
    frames := []
    signaledFences := []
    immediateCmdFence := 0
    immediateCmdPool := 0
    immediateCmdBuffer := 0
    mainDrawImage := 0
    sceneDrawImage := 0
    nextHandle := 1 }

/-- The renderer state after `init` on the fresh object, with a
three-image chain. -/
def initializedRenderer : Renderer := (init initialRenderer 3).2

/-- A device behaviour in which every call succeeds and image `0` is
acquired. -/
def allSuccessEnv : DrawEnv :=
  { waitFencesResult := VkResult.success
    resetFencesResult := VkResult.success
    acquireResult := VkResult.success
    acquiredImageIndex := 0
    resetCommandBufferResult := VkResult.success
    beginCommandBufferResult := VkResult.success
    endCommandBufferResult := VkResult.success
    queueSubmitResult := VkResult.success
    presentResult := VkResult.success }

/-- True for the command-recording calls (`vkCmd*` work recorded into a
command buffer). -/
def isCmdOp : Op → Bool
  | Op.cmdPipelineBarrier2 .. => true
  | Op.cmdClearColorImage .. => true
  | Op.cmdBeginRendering .. => true
  | Op.cmdBindPipeline .. => true
  | Op.cmdSetViewport .. => true
  | Op.cmdSetScissor .. => true
  | Op.cmdDraw .. => true
  | Op.cmdEndRendering .. => true
  | Op.cmdRenderImGuiDrawData .. => true
  | Op.cmdBlitImage2 .. => true
  | Op.cmdCopyBuffer .. => true
  | _ => false

/-- True for `vkQueueSubmit` calls. -/
def isSubmitOp : Op → Bool
  | Op.queueSubmit .. => true
  | _ => false

/-- True for the calls that create an object of a surface chain
(`vkCreateSwapchainKHR`, a chain image view, a per-image semaphore). -/
def isChainCreateOp : Op → Bool
  | Op.createSwapchainKHR .. => true
  | Op.createImageView .. => true
  | Op.createSemaphore .. => true
  | _ => false

/-- True for `vkCreateSwapchainKHR` calls. -/
def isChainBuildOp : Op → Bool
  | Op.createSwapchainKHR .. => true
  | _ => false

/-- Number of commands recorded in a trace. -/
def countCmdOps (t : List Op) : Nat := t.countP isCmdOp

/-- Number of queue submissions in a trace. -/
def countSubmits (t : List Op) : Nat := t.countP isSubmitOp

/-- True when an `Except`-valued draw outcome returned normally. -/
def exceptOk : Except VkResult Renderer → Bool
  | Except.ok _ => true
  | Except.error _ => false

/-- The `VK_CHECK` error a draw outcome was thrown with, if any. -/
def exceptErr : Except VkResult Renderer → Option VkResult
  | Except.ok _ => none
  | Except.error e => some e

/-- All handles currently stored for the surface chain: the chain handle,
its images, views and render-finished semaphores. -/
def chainHandles (s : Renderer) : List Nat :=
  s.swapchain :: (s.swapchainImages ++ s.swapchainImageViews ++ s.renderFinishedSemaphores)

lemma listResize_length (l : List Nat) (n : Nat) : (listResize l n).length = n := by
  unfold listResize
  split
  · simpa using by omega
  · simp
    omega

lemma set_append_cons (p l : List Nat) (a v : Nat) :
    (p ++ a :: l).set p.length v = p ++ v :: l := by
  induction p with
  | nil => rfl
  | cons x p ih => simpa using ih

lemma getD_append_cons (p l : List Nat) (v d : Nat) :
    (p ++ v :: l).getD p.length d = v := by
  induction p with
  | nil => rfl
  | cons x p ih => simpa [List.getD] using ih

lemma range_map_add_succ (n k : Nat) :
    (List.range (n + 1)).map (fun j => k + j) =
      k :: (List.range n).map (fun j => k + 1 + j) := by
  rw [List.range_succ_eq_map]
  simp [List.map_map, Function.comp]
  intro a _
  omega

lemma range_map_sem_succ (n k : Nat) :
    (List.range (n + 1)).map (fun j => Op.createSemaphore (k + j)) =
      Op.createSemaphore k :: (List.range n).map (fun j => Op.createSemaphore (k + 1 + j)) := by
  rw [List.range_succ_eq_map]
  simp [List.map_map, Function.comp]
  intro a _
  omega

/-- Closed form of the semaphore loop: starting at index `p.length` on the
vector `p ++ (q ++ t)` with fresh counter `next`, the loop overwrites the
`q` segment with the freshly created semaphores and appends one duplicate
of each, creating `q.length` semaphores in order. -/
lemma semLoopGo_spec (q p t : List Nat) (next : Nat) :
    semLoopGo q.length p.length (p ++ (q ++ t)) next =
      ((List.range q.length).map (fun j => Op.createSemaphore (next + j)),
       p ++ ((List.range q.length).map (fun j => next + j) ++
         (t ++ (List.range q.length).map (fun j => next + j))),
       next + q.length) := by
  induction q generalizing p t next with
  | nil => simp [semLoopGo]
  | cons a q ih =>
      show semLoopGo (q.length + 1) p.length (p ++ ((a :: q) ++ t)) next = _
      rw [semLoopGo]
      have h1 : (p ++ ((a :: q) ++ t)).set p.length next = p ++ next :: (q ++ t) := by
        simpa using set_append_cons p (q ++ t) a next
      rw [h1, getD_append_cons]
      have h2 : (p ++ next :: (q ++ t)) ++ [next] =
          (p ++ [next]) ++ (q ++ (t ++ [next])) := by simp
      rw [h2]
      have h3 : p.length + 1 = (p ++ [next]).length := by simp
      rw [h3, ih (p ++ [next]) (t ++ [next]) (next + 1)]
      simp only [List.length_cons]
      rw [range_map_sem_succ q.length next, range_map_add_succ q.length next]
      refine Prod.ext rfl (Prod.ext ?_ ?_)
      · simp
      · simp
        omega

lemma createSwapchain_state (s : Renderer) (n : Nat) :
    (createSwapchain s n).2 =
      { s with
          swapchain := s.nextHandle
          swapchainImages := (List.range n).map (fun i => s.nextHandle + 1 + i)
          swapchainImageViews := (List.range n).map (fun i => s.nextHandle + 1 + n + i)
          renderFinishedSemaphores :=
            (List.range n).map (fun j => s.nextHandle + 1 + 2 * n + j) ++
              (List.range n).map (fun j => s.nextHandle + 1 + 2 * n + j)
          nextHandle := s.nextHandle + 1 + 2 * n + n } := by
  unfold createSwapchain
  have hq : listResize s.renderFinishedSemaphores n =
      ([] : List Nat) ++ (listResize s.renderFinishedSemaphores n ++ []) := by simp
  have h := semLoopGo_spec (listResize s.renderFinishedSemaphores n) [] []
      (s.nextHandle + 1 + 2 * n)
  rw [listResize_length] at h
  simp only [List.nil_append, List.append_nil, List.length_nil] at h
  simp [h]

/-- Claim C6, as stated, is false at `(image 0, UNDEFINED, GENERAL)`: the
barrier's source access mask is `VK_ACCESS_2_MEMORY_WRITE_BIT` alone, not
the all-access (read and write) mask the claim asserts for both sides. -/
theorem c6_counterexample :
    ¬ ((transitionImageLayout 0 VkImageLayout.undefined VkImageLayout.general).barrier.srcAccessMask =
        VK_ACCESS_2_MEMORY_WRITE_BIT ||| VK_ACCESS_2_MEMORY_READ_BIT) := by
  decide

/-- Claim C6 (amended): for every input `(image, oldLayout, newLayout)`,
the resource transition helper is the pure function `transitionImageLayout`
of those three arguments and produces exactly one barrier description that
covers the whole resource (all mip levels and all array layers, from base
mip 0 and base layer 0) with all-commands source and destination stage
masks; the destination access mask covers both reads and writes, while the
source access mask is memory-write only. -/
theorem c6_transition_barrier (image : Nat) (o n : VkImageLayout) :
    (transitionImageLayout image o n).imageMemoryBarrierCount = 1 ∧
    (transitionImageLayout image o n).barrier.image = image ∧
    (transitionImageLayout image o n).barrier.oldLayout = o ∧
    (transitionImageLayout image o n).barrier.newLayout = n ∧
    (transitionImageLayout image o n).barrier.subresourceRange =
      { aspectMask := VK_IMAGE_ASPECT_COLOR_BIT
        baseMipLevel := 0
        levelCount := VK_REMAINING_MIP_LEVELS
        baseArrayLayer := 0
        layerCount := VK_REMAINING_ARRAY_LAYERS } ∧
    (transitionImageLayout image o n).barrier.srcStageMask =
      VK_PIPELINE_STAGE_ALL_COMMANDS_BIT ∧
    (transitionImageLayout image o n).barrier.dstStageMask =
      VK_PIPELINE_STAGE_ALL_COMMANDS_BIT ∧
    (transitionImageLayout image o n).barrier.srcAccessMask =
      VK_ACCESS_2_MEMORY_WRITE_BIT ∧
    (transitionImageLayout image o n).barrier.dstAccessMask =
      VK_ACCESS_2_MEMORY_WRITE_BIT ||| VK_ACCESS_2_MEMORY_READ_BIT :=
  ⟨rfl, rfl, rfl, rfl, rfl, rfl, rfl, rfl, rfl⟩

/-- Claim C1 fails on the code: building a chain with 3 presentable images
leaves 3 images and 3 views but 6 render-finished semaphores, because the
semaphore loop both writes each created semaphore into slot `i` of the
resized vector and `push_back`s a duplicate of it.  The same happens again
on rebuild.  The per-image length equality the spec states is broken. -/
theorem c1_semaphore_length_bug :
    (createSwapchain initialRenderer 3).2.swapchainImages.length = 3 ∧
    (createSwapchain initialRenderer 3).2.swapchainImageViews.length = 3 ∧
    (createSwapchain initialRenderer 3).2.renderFinishedSemaphores.length = 6 ∧
    ¬ ((createSwapchain initialRenderer 3).2.renderFinishedSemaphores.length =
        (createSwapchain initialRenderer 3).2.swapchainImages.length) ∧
    (rebuildSwapchain initializedRenderer 3).2.swapchainImages.length = 3 ∧
    (rebuildSwapchain initializedRenderer 3).2.renderFinishedSemaphores.length = 6 := by
  decide

/-- A device behaviour in which image acquisition fails with
`VK_ERROR_DEVICE_LOST` and every other call succeeds. -/
def deviceLostAcquireEnv : DrawEnv :=
  { allSuccessEnv with acquireResult := VkResult.errorDeviceLost }

/-- Claim C2 fails on the code: when `vkAcquireNextImageKHR` returns
`VK_ERROR_DEVICE_LOST` (a non-success result that is neither suboptimal
nor out-of-date), `draw` raises no error at all — it records the full
20-command frame, issues the queue submission, and completes normally
(`frameNumber` advances), because only the two staleness codes are ever
inspected on the acquisition result.  By contrast a failing `VK_CHECK`ed
call (here `vkQueueSubmit`) does raise the unrecoverable error. -/
theorem c2_acquire_error_ignored :
    exceptOk (draw initializedRenderer deviceLostAcquireEnv).2 = true ∧
    countCmdOps (draw initializedRenderer deviceLostAcquireEnv).1 = 20 ∧
    countSubmits (draw initializedRenderer deviceLostAcquireEnv).1 = 1 ∧
    ((draw initializedRenderer deviceLostAcquireEnv).2.toOption.map
      (fun r => r.frameNumber)) = some 1 ∧
    exceptErr (draw initializedRenderer
        { allSuccessEnv with queueSubmitResult := VkResult.errorDeviceLost }).2 =
      some VkResult.errorDeviceLost := by
  decide

/-- Claim C10: `init` on an already-initialized renderer returns
immediately, issues no device call and leaves the state unchanged;
`cleanup` on a renderer that was never initialized is a no-op issuing no
destruction. -/
theorem c10_init_cleanup_guards (s1 s2 : Renderer) (n : Nat)
    (h1 : s1.isInitialized = true) (h2 : s2.isInitialized = false) :
    init s1 n = ([], s1) ∧ cleanup s2 = ([], s2) := by
  constructor
  · simp [init, h1]
  · simp [cleanup, h2]

/-- Witness for C10 at the concrete initialized and fresh renderer
states. -/
theorem c10_init_cleanup_guards_witness :
    initializedRenderer.isInitialized = true ∧
    initialRenderer.isInitialized = false ∧
    (init initializedRenderer 3 = ([], initializedRenderer) ∧
      cleanup initialRenderer = ([], initialRenderer)) :=
  ⟨by decide, by decide,
   c10_init_cleanup_guards initializedRenderer initialRenderer 3 (by decide) (by decide)⟩

/-- Claim C7: every `immediateSubmit` call runs the supplied callback
against the dedicated immediate command buffer, framed by the dedicated
fence's reset, the submit that signals it, and the `vkWaitForFences` on it
as the very last device call before returning; the dedicated command
buffer, pool and fence differ from every Frame Ring slot's; and in the
mesh upload the staging buffer is destroyed exactly once, as the final
call, immediately after the fence wait that ends `immediateSubmit`. -/
theorem c7_immediate_submit (cb : Nat → List Op) :
    immediateSubmit initializedRenderer cb =
      [Op.resetFences initializedRenderer.immediateCmdFence,
       Op.resetCommandBuffer initializedRenderer.immediateCmdBuffer,
       Op.beginCommandBuffer initializedRenderer.immediateCmdBuffer] ++
      cb initializedRenderer.immediateCmdBuffer ++
      [Op.endCommandBuffer initializedRenderer.immediateCmdBuffer,
       Op.queueSubmit initializedRenderer.immediateCmdBuffer [] []
         initializedRenderer.immediateCmdFence,
       Op.waitForFences initializedRenderer.immediateCmdFence] ∧
    initializedRenderer.frames.all (fun f =>
      (f.commandBuffer != initializedRenderer.immediateCmdBuffer) &&
      (f.commandPool != initializedRenderer.immediateCmdPool) &&
      (f.commandsCompleteFence != initializedRenderer.immediateCmdFence)) = true ∧
    (uploadMesh initializedRenderer).count
      (Op.destroyBuffer (initializedRenderer.nextHandle + 2)) = 1 ∧
    (uploadMesh initializedRenderer).getLast? =
      some (Op.destroyBuffer (initializedRenderer.nextHandle + 2)) ∧
    (uploadMesh initializedRenderer).dropLast.getLast? =
      some (Op.waitForFences initializedRenderer.immediateCmdFence) := by
  refine ⟨by simp [immediateSubmit], by decide, by decide, by decide, by decide⟩

lemma waitForFencesModel_success (s : Renderer) (f : Nat) :
    waitForFencesModel s f VkResult.success = VkResult.success := by
  unfold waitForFencesModel
  split <;> rfl

lemma draw_stale_acquire (s : Renderer) (dr : DrawEnv)
    (hw : dr.waitFencesResult = VkResult.success)
    (hr : dr.resetFencesResult = VkResult.success)
    (ha : dr.acquireResult = VkResult.suboptimalKHR ∨
      dr.acquireResult = VkResult.errorOutOfDateKHR) :
    countCmdOps (draw s dr).1 = 0 ∧ countSubmits (draw s dr).1 = 0 ∧
      ∃ s1, (draw s dr).2 = Except.ok s1 ∧ s1.swapchainStale = true ∧
        s1.frameNumber = s.frameNumber := by
  simp only [draw, hw, hr, waitForFencesModel_success, ha, ne_eq, not_true_eq_false,
    if_false, if_true, reduceIte]
  refine ⟨by simp [countCmdOps, isCmdOp], by simp [countSubmits, isSubmitOp], ?_⟩
  exact ⟨_, rfl, rfl, rfl⟩

lemma draw_present_stale (s : Renderer) (dr2 : DrawEnv)
    (hw2 : dr2.waitFencesResult = VkResult.success)
    (hr2 : dr2.resetFencesResult = VkResult.success)
    (ha2 : ¬ (dr2.acquireResult = VkResult.suboptimalKHR ∨
      dr2.acquireResult = VkResult.errorOutOfDateKHR))
    (hrc2 : dr2.resetCommandBufferResult = VkResult.success)
    (hb2 : dr2.beginCommandBufferResult = VkResult.success)
    (he2 : dr2.endCommandBufferResult = VkResult.success)
    (hs2 : dr2.queueSubmitResult = VkResult.success)
    (hp2 : dr2.presentResult = VkResult.suboptimalKHR ∨
      dr2.presentResult = VkResult.errorOutOfDateKHR) :
    Op.queueSubmit (getCurrentFrame s).commandBuffer
        [(getCurrentFrame s).imageAvailableSemaphore]
        [s.renderFinishedSemaphores.getD dr2.acquiredImageIndex 0]
        (getCurrentFrame s).commandsCompleteFence ∈ (draw s dr2).1 ∧
      Op.queuePresent [s.renderFinishedSemaphores.getD dr2.acquiredImageIndex 0]
        dr2.acquiredImageIndex ∈ (draw s dr2).1 ∧
      ∃ s2, (draw s dr2).2 = Except.ok s2 ∧ s2.swapchainStale = true ∧
        s2.frameNumber = s.frameNumber + 1 := by
  simp only [draw, hw2, hr2, waitForFencesModel_success, ha2, hrc2, hb2, he2, hs2, hp2,
    ne_eq, not_true_eq_false, not_false_eq_true, if_false, if_true, reduceIte]
  refine ⟨by simp, by simp, ?_⟩
  exact ⟨_, rfl, by simp [hp2], rfl⟩

/-- Claim C3: in any `draw` call whose acquisition reports
suboptimal/out-of-date (`dr`), the frame is aborted with zero commands
recorded and zero queue submissions, `swapchainStale` is set and
`frameNumber` is unchanged; in any `draw` call that reaches presentation
and whose presentation (not acquisition) reports suboptimal/out-of-date
(`dr2`), the queue submission — waiting on the slot's image-available
semaphore, signalling the acquired image's render-finished semaphore and
signalling the slot's fence — and the presentation request have still
been issued, and the frame completes (`frameNumber` advances) with the
staleness flag set. -/
theorem c3_staleness_paths (s : Renderer) (dr dr2 : DrawEnv)
    (hw : dr.waitFencesResult = VkResult.success)
    (hr : dr.resetFencesResult = VkResult.success)
    (ha : dr.acquireResult = VkResult.suboptimalKHR ∨
      dr.acquireResult = VkResult.errorOutOfDateKHR)
    (hw2 : dr2.waitFencesResult = VkResult.success)
    (hr2 : dr2.resetFencesResult = VkResult.success)
    (ha2 : ¬ (dr2.acquireResult = VkResult.suboptimalKHR ∨
      dr2.acquireResult = VkResult.errorOutOfDateKHR))
    (hrc2 : dr2.resetCommandBufferResult = VkResult.success)
    (hb2 : dr2.beginCommandBufferResult = VkResult.success)
    (he2 : dr2.endCommandBufferResult = VkResult.success)
    (hs2 : dr2.queueSubmitResult = VkResult.success)
    (hp2 : dr2.presentResult = VkResult.suboptimalKHR ∨
      dr2.presentResult = VkResult.errorOutOfDateKHR) :
    (countCmdOps (draw s dr).1 = 0 ∧ countSubmits (draw s dr).1 = 0 ∧
      ∃ s1, (draw s dr).2 = Except.ok s1 ∧ s1.swapchainStale = true ∧
        s1.frameNumber = s.frameNumber) ∧
    (Op.queueSubmit (getCurrentFrame s).commandBuffer
        [(getCurrentFrame s).imageAvailableSemaphore]
        [s.renderFinishedSemaphores.getD dr2.acquiredImageIndex 0]
        (getCurrentFrame s).commandsCompleteFence ∈ (draw s dr2).1 ∧
      Op.queuePresent [s.renderFinishedSemaphores.getD dr2.acquiredImageIndex 0]
        dr2.acquiredImageIndex ∈ (draw s dr2).1 ∧
      ∃ s2, (draw s dr2).2 = Except.ok s2 ∧ s2.swapchainStale = true ∧
        s2.frameNumber = s.frameNumber + 1) := by
  exact ⟨draw_stale_acquire s dr hw hr ha,
    draw_present_stale s dr2 hw2 hr2 ha2 hrc2 hb2 he2 hs2 hp2⟩

/-- A device behaviour whose acquisition reports out-of-date and whose
other calls succeed. -/
def staleAcquireEnv : DrawEnv :=
  { allSuccessEnv with acquireResult := VkResult.errorOutOfDateKHR }

/-- A device behaviour whose presentation reports suboptimal and whose
other calls succeed. -/
def stalePresentEnv : DrawEnv :=
  { allSuccessEnv with presentResult := VkResult.suboptimalKHR }

/-- Witness for C3 on the initialized renderer, with an out-of-date
acquisition and a suboptimal presentation. -/
theorem c3_staleness_paths_witness :
    countCmdOps (draw initializedRenderer staleAcquireEnv).1 = 0 ∧
    countSubmits (draw initializedRenderer staleAcquireEnv).1 = 0 ∧
    (draw initializedRenderer staleAcquireEnv).2.toOption.map
      (fun r => (r.swapchainStale, r.frameNumber)) = some (true, 0) ∧
    Op.queueSubmit (getCurrentFrame initializedRenderer).commandBuffer
      [(getCurrentFrame initializedRenderer).imageAvailableSemaphore]
      [initializedRenderer.renderFinishedSemaphores.getD
        stalePresentEnv.acquiredImageIndex 0]
      (getCurrentFrame initializedRenderer).commandsCompleteFence ∈
        (draw initializedRenderer stalePresentEnv).1 ∧
    Op.queuePresent
      [initializedRenderer.renderFinishedSemaphores.getD
        stalePresentEnv.acquiredImageIndex 0]
      stalePresentEnv.acquiredImageIndex ∈
        (draw initializedRenderer stalePresentEnv).1 ∧
    (draw initializedRenderer stalePresentEnv).2.toOption.map
      (fun r => (r.swapchainStale, r.frameNumber)) = some (true, 1) := by
  obtain ⟨⟨hc, hs, s1, hok1, hst1, hfn1⟩, hsub, hpres, s2, hok2, hst2, hfn2⟩ :=
    c3_staleness_paths initializedRenderer staleAcquireEnv stalePresentEnv
      (by decide) (by decide) (by decide) (by decide) (by decide) (by decide)
      (by decide) (by decide) (by decide) (by decide) (by decide)
  refine ⟨hc, hs, ?_, hsub, hpres, ?_⟩
  · rw [hok1]
    show some (s1.swapchainStale, s1.frameNumber) = some (true, 0)
    rw [hst1, hfn1]
    decide
  · rw [hok2]
    show some (s2.swapchainStale, s2.frameNumber) = some (true, 1)
    rw [hst2, hfn2]
    decide

/-- A device behaviour under which `draw` reaches presentation: the fence
wait and reset, command-buffer operations and queue submission all succeed
and acquisition does not report staleness (the presentation result is
unconstrained). -/
def goodEnv (dr : DrawEnv) : Prop :=
  dr.waitFencesResult = VkResult.success ∧
  dr.resetFencesResult = VkResult.success ∧
  ¬ (dr.acquireResult = VkResult.suboptimalKHR ∨
    dr.acquireResult = VkResult.errorOutOfDateKHR) ∧
  dr.resetCommandBufferResult = VkResult.success ∧
  dr.beginCommandBufferResult = VkResult.success ∧
  dr.endCommandBufferResult = VkResult.success ∧
  dr.queueSubmitResult = VkResult.success

instance goodEnvDecidable (dr : DrawEnv) : Decidable (goodEnv dr) := by
  unfold goodEnv
  infer_instance

lemma draw_good_step (s : Renderer) (dr : DrawEnv) (h : goodEnv dr) :
    (∃ s1, (draw s dr).2 = Except.ok s1 ∧ s1.frameNumber = s.frameNumber + 1 ∧
      s1.frames = s.frames) ∧
    Op.queueSubmit (getCurrentFrame s).commandBuffer
      [(getCurrentFrame s).imageAvailableSemaphore]
      [s.renderFinishedSemaphores.getD dr.acquiredImageIndex 0]
      (getCurrentFrame s).commandsCompleteFence ∈ (draw s dr).1 := by
  obtain ⟨h1, h2, h3, h4, h5, h6, h7⟩ := h
  simp only [draw, h1, h2, h3, h4, h5, h6, h7, waitForFencesModel_success, ne_eq,
    not_true_eq_false, not_false_eq_true, if_false, if_true, reduceIte]
  exact ⟨⟨_, rfl, rfl, rfl⟩, by simp⟩

/-- Claim C4: driving `N` frames that all reach presentation increases
`frameNumber` by exactly `N`; the slot a frame executes against is
`frames[frameNumber mod FRAMES_IN_FLIGHT]` with `FRAMES_IN_FLIGHT = 2`
(witnessed both by `getCurrentFrame` and by the slot resources named in
the frame's queue submission); and a `draw` aborted by a stale acquisition
leaves `frameNumber` unchanged. -/
theorem c4_frame_counter (s : Renderer) (envs : List DrawEnv) (dr0 : DrawEnv)
    (hgood : ∀ dr ∈ envs, goodEnv dr)
    (hw0 : dr0.waitFencesResult = VkResult.success)
    (hr0 : dr0.resetFencesResult = VkResult.success)
    (ha0 : dr0.acquireResult = VkResult.suboptimalKHR ∨
      dr0.acquireResult = VkResult.errorOutOfDateKHR) :
    (∃ s1, runFrames s envs = some s1 ∧
      s1.frameNumber = s.frameNumber + envs.length) ∧
    FRAMES_IN_FLIGHT = 2 ∧
    (∀ t : Renderer, getCurrentFrame t = t.frames.getD (t.frameNumber % 2) ⟨0, 0, 0, 0⟩) ∧
    (∀ t : Renderer, ∀ dr : DrawEnv, goodEnv dr →
      Op.queueSubmit (t.frames.getD (t.frameNumber % 2) ⟨0, 0, 0, 0⟩).commandBuffer
        [(t.frames.getD (t.frameNumber % 2) ⟨0, 0, 0, 0⟩).imageAvailableSemaphore]
        [t.renderFinishedSemaphores.getD dr.acquiredImageIndex 0]
        (t.frames.getD (t.frameNumber % 2) ⟨0, 0, 0, 0⟩).commandsCompleteFence ∈
          (draw t dr).1) ∧
    (∃ s0, (draw s dr0).2 = Except.ok s0 ∧ s0.frameNumber = s.frameNumber) := by
  refine ⟨?_, rfl, fun t => rfl, fun t dr h => (draw_good_step t dr h).2, ?_⟩
  · clear hw0 hr0 ha0
    induction envs generalizing s with
    | nil => exact ⟨s, rfl, by simp⟩
    | cons dr rest ih =>
        obtain ⟨⟨s1, hok, hfn, _⟩, _⟩ := draw_good_step s dr (hgood dr (by simp))
        obtain ⟨s2, h2, h3⟩ := ih s1 (fun d hd => hgood d (by simp [hd]))
        refine ⟨s2, ?_, ?_⟩
        · simp [runFrames, hok, h2]
        · simp only [List.length_cons]
          omega
  · obtain ⟨_, _, s1, hok, _, hfn⟩ := draw_stale_acquire s dr0 hw0 hr0 ha0
    exact ⟨s1, hok, hfn⟩

/-- Witness for C4 on the initialized renderer: two presented frames
advance `frameNumber` from 0 to 2, slot selection on it is
`frames[frameNumber mod 2]`, and a stale acquisition leaves the counter
at 0. -/
theorem c4_frame_counter_witness :
    (runFrames initializedRenderer [allSuccessEnv, stalePresentEnv]).map
      (fun r => r.frameNumber) = some 2 ∧
    FRAMES_IN_FLIGHT = 2 ∧
    getCurrentFrame initializedRenderer =
      initializedRenderer.frames.getD (initializedRenderer.frameNumber % 2)
        ⟨0, 0, 0, 0⟩ ∧
    (draw initializedRenderer staleAcquireEnv).2.toOption.map
      (fun r => r.frameNumber) = some 0 := by
  obtain ⟨⟨s1, h1, h2⟩, hfif, hslot, _, s0, hok0, hfn0⟩ :=
    c4_frame_counter initializedRenderer [allSuccessEnv, stalePresentEnv] staleAcquireEnv
      (by decide) (by decide) (by decide) (by decide)
  refine ⟨?_, hfif, hslot initializedRenderer, ?_⟩
  · rw [h1]
    show some s1.frameNumber = some 2
    rw [h2]
    decide
  · rw [hok0]
    show some s0.frameNumber = some 0
    rw [hfn0]
    decide

/-- True for the calls that destroy a GPU object. -/
def isDestroyOp : Op → Bool
  | Op.destroySwapchainKHR .. => true
  | Op.destroyImageView .. => true
  | Op.destroySemaphore .. => true
  | Op.destroyCommandPool .. => true
  | Op.destroyFence .. => true
  | Op.destroyImage .. => true
  | Op.destroySampler .. => true
  | Op.destroyBuffer .. => true
  | _ => false

lemma draw_no_rebuild_ops (s : Renderer) (dr : DrawEnv) :
    (draw s dr).1.countP isChainBuildOp = 0 ∧ (draw s dr).1.countP isDestroyOp = 0 := by
  simp only [draw]
  repeat' split
  all_goals simp [drawRecordOps, isChainBuildOp, isDestroyOp]

lemma draw_preserves_stale (s : Renderer) (dr : DrawEnv) (s1 : Renderer)
    (hok : (draw s dr).2 = Except.ok s1) (hst : s.swapchainStale = true) :
    s1.swapchainStale = true := by
  simp only [draw] at hok
  repeat' split at hok
  all_goals dsimp only at hok
  all_goals try exact Except.noConfusion hok
  all_goals injection hok with hok
  all_goals subst hok
  all_goals first
    | rfl
    | exact hst

lemma semLoopGo_no_build (r i : Nat) (sems : List Nat) (next : Nat) :
    (semLoopGo r i sems next).1.countP isChainBuildOp = 0 := by
  induction r generalizing i sems next with
  | zero => rfl
  | succ r ih => simp [semLoopGo, isChainBuildOp, ih]

lemma createSwapchain_one_build (s : Renderer) (n : Nat) :
    (createSwapchain s n).1.countP isChainBuildOp = 1 := by
  unfold createSwapchain
  simp only [List.countP_cons, List.countP_append, semLoopGo_no_build]
  have h1 : isChainBuildOp (Op.createSwapchainKHR s.nextHandle) = true := rfl
  have h2 : ((List.range n).map (fun i =>
      Op.createImageView (s.nextHandle + 1 + n + i))).countP isChainBuildOp = 0 := by
    rw [List.countP_eq_zero]
    intro op hop
    simp only [List.mem_map] at hop
    obtain ⟨a, _, rfl⟩ := hop
    simp [isChainBuildOp]
  simp [h1, h2]
  intro a _
  rfl

lemma destroyFrameDatas_no_build (s : Renderer) :
    (destroyFrameDatas s).1.countP isChainBuildOp = 0 := by
  rw [List.countP_eq_zero]
  intro op hop
  simp only [destroyFrameDatas, List.mem_flatten, List.mem_map] at hop
  obtain ⟨l, ⟨f, _, rfl⟩, hmem⟩ := hop
  simp at hmem
  rcases hmem with rfl | rfl | rfl <;> simp [isChainBuildOp]

lemma destroySwapchain_no_build (s : Renderer) :
    (destroySwapchain s).1.countP isChainBuildOp = 0 := by
  rw [List.countP_eq_zero]
  intro op hop
  simp only [destroySwapchain, List.mem_append, List.mem_flatten, List.mem_map] at hop
  rcases hop with ⟨l, ⟨i, _, rfl⟩, hmem⟩ | hmem
  · simp at hmem
    rcases hmem with rfl | rfl <;> simp [isChainBuildOp]
  · simp at hmem
    subst hmem
    simp [isChainBuildOp]

lemma initFrameDatas_no_build (s : Renderer) :
    (initFrameDatas s).1.countP isChainBuildOp = 0 := by
  simp [initFrameDatas, initFrameSlot, List.countP_cons, isChainBuildOp]

lemma rebuildSwapchain_one_build (s : Renderer) (n : Nat) :
    (rebuildSwapchain s n).1.countP isChainBuildOp = 1 := by
  simp [rebuildSwapchain, List.countP_cons, List.countP_append, isChainBuildOp,
    destroyFrameDatas_no_build, destroySwapchain_no_build, createSwapchain_one_build,
    initFrameDatas_no_build]

/-- Claim C5: `draw` never rebuilds (nor destroys) any chain object inline
and never clears the staleness flag; the run loop inspects the flag once
per iteration before driving the frame, performing — when the flag is set
— exactly one chain rebuild, whose first device call is the full
device-idle wait, strictly before all of the frame's device calls, and
handing `draw` a state in which the flag is already false; when the flag
is clear the iteration performs no rebuild at all. -/
theorem c5_rebuild_between_frames (s : Renderer) (n : Nat) (dr : DrawEnv) :
    ((draw s dr).1.countP isChainBuildOp = 0 ∧
      (draw s dr).1.countP isDestroyOp = 0) ∧
    (∀ s1, (draw s dr).2 = Except.ok s1 → s.swapchainStale = true →
      s1.swapchainStale = true) ∧
    (s.swapchainStale = true →
      (runLoopIteration s n dr).1 =
        (rebuildSwapchain s n).1 ++ (draw (rebuildSwapchain s n).2 dr).1 ∧
      (rebuildSwapchain s n).1.head? = some Op.deviceWaitIdle ∧
      (rebuildSwapchain s n).2.swapchainStale = false ∧
      (rebuildSwapchain s n).1.countP isChainBuildOp = 1 ∧
      (runLoopIteration s n dr).1.countP isChainBuildOp = 1) ∧
    (s.swapchainStale = false →
      (runLoopIteration s n dr).1 = (draw s dr).1 ∧
      (runLoopIteration s n dr).1.countP isChainBuildOp = 0) := by
  refine ⟨draw_no_rebuild_ops s dr,
    fun s1 hok hst => draw_preserves_stale s dr s1 hok hst, ?_, ?_⟩
  · intro hst
    refine ⟨by simp [runLoopIteration, hst], rfl, rfl, rebuildSwapchain_one_build s n, ?_⟩
    simp [runLoopIteration, hst, List.countP_append, rebuildSwapchain_one_build,
      (draw_no_rebuild_ops (rebuildSwapchain s n).2 dr).1]
  · intro hst
    refine ⟨by simp [runLoopIteration, hst], ?_⟩
    simp [runLoopIteration, hst, (draw_no_rebuild_ops s dr).1]

/-- Witness for C5 on the initialized renderer with the staleness flag
set and with it clear. -/
theorem c5_rebuild_between_frames_witness :
    (runLoopIteration { initializedRenderer with swapchainStale := true } 3
        allSuccessEnv).1 =
      (rebuildSwapchain { initializedRenderer with swapchainStale := true } 3).1 ++
      (draw (rebuildSwapchain { initializedRenderer with swapchainStale := true } 3).2
        allSuccessEnv).1 ∧
    (rebuildSwapchain { initializedRenderer with swapchainStale := true } 3).1.head? =
      some Op.deviceWaitIdle ∧
    (rebuildSwapchain { initializedRenderer with
      swapchainStale := true } 3).2.swapchainStale = false ∧
    (rebuildSwapchain { initializedRenderer with
      swapchainStale := true } 3).1.countP isChainBuildOp = 1 ∧
    (runLoopIteration { initializedRenderer with swapchainStale := true } 3
      allSuccessEnv).1.countP isChainBuildOp = 1 ∧
    (runLoopIteration initializedRenderer 3 allSuccessEnv).1 =
      (draw initializedRenderer allSuccessEnv).1 ∧
    (runLoopIteration initializedRenderer 3 allSuccessEnv).1.countP isChainBuildOp = 0 := by
  obtain ⟨h1, h2, h3, h4, h5⟩ :=
    (c5_rebuild_between_frames { initializedRenderer with swapchainStale := true } 3
      allSuccessEnv).2.2.1 rfl
  obtain ⟨h6, h7⟩ :=
    (c5_rebuild_between_frames initializedRenderer 3 allSuccessEnv).2.2.2 (by decide)
  exact ⟨h1, h2, h3, h4, h5, h6, h7⟩

lemma initFrameDatas_fences (s : Renderer) (r : VkResult) :
    ∀ f ∈ (initFrameDatas s).2.frames,
      Op.createFence f.commandsCompleteFence true ∈ (initFrameDatas s).1 ∧
      waitForFencesModel (initFrameDatas s).2 f.commandsCompleteFence r =
        VkResult.success := by
  intro f hf
  simp only [initFrameDatas, initFrameSlot, List.mem_cons, List.not_mem_nil,
    or_false] at hf
  rcases hf with rfl | rfl <;>
    exact ⟨by simp [initFrameDatas, initFrameSlot],
      by simp [waitForFencesModel, initFrameDatas, initFrameSlot, List.contains]⟩

/-- Claim C8: `initFrameDatas` creates exactly `FRAMES_IN_FLIGHT` slots
and every slot's commands-complete fence is created with
`VK_FENCE_CREATE_SIGNALED_BIT`, so the first `vkWaitForFences` on a fresh
slot returns success immediately whatever the device would otherwise
report (`r`) — both at startup (`init` on an uninitialized renderer) and
after every slot re-creation (`rebuildSwapchain`). -/
theorem c8_fences_signaled (s s2 : Renderer) (n : Nat) (r : VkResult)
    (h2 : s2.isInitialized = false) :
    (initFrameDatas s).2.frames.length = FRAMES_IN_FLIGHT ∧
    (∀ f ∈ (initFrameDatas s).2.frames,
      Op.createFence f.commandsCompleteFence true ∈ (initFrameDatas s).1 ∧
      waitForFencesModel (initFrameDatas s).2 f.commandsCompleteFence r =
        VkResult.success) ∧
    (∀ f ∈ (rebuildSwapchain s n).2.frames,
      Op.createFence f.commandsCompleteFence true ∈ (rebuildSwapchain s n).1 ∧
      waitForFencesModel (rebuildSwapchain s n).2 f.commandsCompleteFence r =
        VkResult.success) ∧
    (∀ f ∈ (init s2 n).2.frames,
      Op.createFence f.commandsCompleteFence true ∈ (init s2 n).1 ∧
      waitForFencesModel (init s2 n).2 f.commandsCompleteFence r =
        VkResult.success) := by
  refine ⟨rfl, initFrameDatas_fences s r, ?_, ?_⟩
  · intro f hf
    have hf' : f ∈ (initFrameDatas
        (createSwapchain (destroyFrameDatas s).2 n).2).2.frames := hf
    obtain ⟨hmem, hwait⟩ := initFrameDatas_fences
      (createSwapchain (destroyFrameDatas s).2 n).2 r f hf'
    refine ⟨?_, hwait⟩
    simp only [rebuildSwapchain, destroySwapchain]
    simp [List.mem_append, hmem]
  · intro f hf
    rw [init, if_neg (by simp [h2])] at hf ⊢
    have hf' : f ∈ (initFrameDatas
        (createDrawImages (initImmediateCommands (createSwapchain s2 n).2).2).2).2.frames := hf
    obtain ⟨hmem, hwait⟩ := initFrameDatas_fences
      (createDrawImages (initImmediateCommands (createSwapchain s2 n).2).2).2 r f hf'
    exact ⟨by simp [List.mem_append, hmem], hwait⟩

/-- Witness for C8: slot 0 of the freshly created frame ring, of the
rebuilt ring, and of the ring made by `init`, each has its fence created
signaled and a wait on it succeeds even when the device would report a
timeout. -/
theorem c8_fences_signaled_witness :
    (initFrameDatas initialRenderer).2.frames.length = FRAMES_IN_FLIGHT ∧
    Op.createFence ((initFrameDatas initialRenderer).2.frames.getD 0
        ⟨0, 0, 0, 0⟩).commandsCompleteFence true ∈ (initFrameDatas initialRenderer).1 ∧
    waitForFencesModel (initFrameDatas initialRenderer).2
      ((initFrameDatas initialRenderer).2.frames.getD 0
        ⟨0, 0, 0, 0⟩).commandsCompleteFence VkResult.timeout = VkResult.success ∧
    waitForFencesModel (rebuildSwapchain initialRenderer 3).2
      ((rebuildSwapchain initialRenderer 3).2.frames.getD 0
        ⟨0, 0, 0, 0⟩).commandsCompleteFence VkResult.timeout = VkResult.success ∧
    waitForFencesModel (init initialRenderer 3).2
      ((init initialRenderer 3).2.frames.getD 0
        ⟨0, 0, 0, 0⟩).commandsCompleteFence VkResult.timeout = VkResult.success := by
  obtain ⟨hlen, hinit, hrebuild, hinitial⟩ :=
    c8_fences_signaled initialRenderer initialRenderer 3 VkResult.timeout (by decide)
  exact ⟨hlen,
    (hinit _ (by decide)).1,
    (hinit _ (by decide)).2,
    (hrebuild _ (by decide)).2,
    (hinitial _ (by decide)).2⟩

/-- True for `vkDestroySwapchainKHR` calls (destruction of the chain
handle itself). -/
def isChainHandleDestroyOp : Op → Bool
  | Op.destroySwapchainKHR .. => true
  | _ => false

lemma destroy_loop_mem (s : Renderer) (i : Nat) (hi : i < s.swapchainImages.length) :
    Op.destroyImageView (s.swapchainImageViews.getD i 0) ∈
      ((List.range s.swapchainImages.length).map (fun j =>
        [Op.destroyImageView (s.swapchainImageViews.getD j 0),
         Op.destroySemaphore (s.renderFinishedSemaphores.getD j 0)])).flatten ∧
    Op.destroySemaphore (s.renderFinishedSemaphores.getD i 0) ∈
      ((List.range s.swapchainImages.length).map (fun j =>
        [Op.destroyImageView (s.swapchainImageViews.getD j 0),
         Op.destroySemaphore (s.renderFinishedSemaphores.getD j 0)])).flatten := by
  constructor <;>
    (rw [List.mem_flatten]
     exact ⟨_, List.mem_map_of_mem _ (List.mem_range.mpr hi), by simp⟩)

lemma rebuildSwapchain_chain_fields (s : Renderer) (m : Nat) :
    (rebuildSwapchain s m).2.swapchain = s.nextHandle ∧
    (rebuildSwapchain s m).2.swapchainImages =
      (List.range m).map (fun i => s.nextHandle + 1 + i) ∧
    (rebuildSwapchain s m).2.swapchainImageViews =
      (List.range m).map (fun i => s.nextHandle + 1 + m + i) ∧
    (rebuildSwapchain s m).2.renderFinishedSemaphores =
      (List.range m).map (fun j => s.nextHandle + 1 + 2 * m + j) ++
        (List.range m).map (fun j => s.nextHandle + 1 + 2 * m + j) := by
  have h : (createSwapchain (destroyFrameDatas s).2 m).2 =
      { (destroyFrameDatas s).2 with
          swapchain := s.nextHandle
          swapchainImages := (List.range m).map (fun i => s.nextHandle + 1 + i)
          swapchainImageViews := (List.range m).map (fun i => s.nextHandle + 1 + m + i)
          renderFinishedSemaphores :=
            (List.range m).map (fun j => s.nextHandle + 1 + 2 * m + j) ++
              (List.range m).map (fun j => s.nextHandle + 1 + 2 * m + j)
          nextHandle := s.nextHandle + 1 + 2 * m + m } :=
    createSwapchain_state (destroyFrameDatas s).2 m
  simp only [rebuildSwapchain, destroySwapchain, initFrameDatas, initFrameSlot, h]
  exact ⟨trivial, trivial, trivial, trivial⟩

/-- Claim C9: `destroySwapchain` destroys every per-image image view and
render-finished semaphore strictly before the chain handle itself;
`rebuildSwapchain` performs all of those old-chain destructions (and the
chain-handle destruction) in a trace prefix containing no chain-object
creation, so the whole old chain is gone before any object of the new
chain exists; and when every stored chain handle predates the fresh-handle
counter, no handle of the old chain is referenced by the state the rebuild
leaves behind. -/
theorem c9_chain_teardown (s : Renderer) (n m : Nat)
    (hb : ∀ h ∈ chainHandles s, h < s.nextHandle) :
    (∃ loopOps, (destroySwapchain s).1 = loopOps ++ [Op.destroySwapchainKHR s.swapchain] ∧
      (∀ i, i < s.swapchainImages.length →
        Op.destroyImageView (s.swapchainImageViews.getD i 0) ∈ loopOps ∧
        Op.destroySemaphore (s.renderFinishedSemaphores.getD i 0) ∈ loopOps) ∧
      (∀ op ∈ loopOps, isChainHandleDestroyOp op = false)) ∧
    (∃ pre post, (rebuildSwapchain s n).1 = pre ++ post ∧
      (∀ op ∈ pre, isChainCreateOp op = false) ∧
      (∀ i, i < s.swapchainImages.length →
        Op.destroyImageView (s.swapchainImageViews.getD i 0) ∈ pre ∧
        Op.destroySemaphore (s.renderFinishedSemaphores.getD i 0) ∈ pre) ∧
      Op.destroySwapchainKHR s.swapchain ∈ pre) ∧
    (∀ h ∈ chainHandles s, h ∉ chainHandles (rebuildSwapchain s m).2) := by
  refine ⟨?_, ?_, ?_⟩
  · refine ⟨_, rfl, fun i hi => destroy_loop_mem s i hi, ?_⟩
    intro op hop
    rw [List.mem_flatten] at hop
    obtain ⟨l, hl, hmem⟩ := hop
    simp only [List.mem_map] at hl
    obtain ⟨j, _, rfl⟩ := hl
    simp at hmem
    rcases hmem with rfl | rfl <;> rfl
  · refine ⟨Op.deviceWaitIdle ::
      ((destroyFrameDatas s).1 ++ (destroySwapchain (destroyFrameDatas s).2).1),
      Op.getWindowSize ::
        ((createSwapchain (destroySwapchain (destroyFrameDatas s).2).2 n).1 ++
          (initFrameDatas
            (createSwapchain (destroySwapchain (destroyFrameDatas s).2).2 n).2).1),
      by simp [rebuildSwapchain], ?_, ?_, ?_⟩
    · intro op hop
      simp only [List.mem_cons, List.mem_append] at hop
      rcases hop with rfl | hop | hop
      · rfl
      · simp only [destroyFrameDatas, List.mem_flatten, List.mem_map] at hop
        obtain ⟨l, ⟨f, _, rfl⟩, hmem⟩ := hop
        simp at hmem
        rcases hmem with rfl | rfl | rfl <;> rfl
      · simp only [destroySwapchain, List.mem_append, List.mem_flatten,
          List.mem_map] at hop
        rcases hop with ⟨l, ⟨j, _, rfl⟩, hmem⟩ | hmem
        · simp at hmem
          rcases hmem with rfl | rfl <;> rfl
        · simp at hmem
          subst hmem
          rfl
    · intro i hi
      have hmem := destroy_loop_mem (destroyFrameDatas s).2 i hi
      exact ⟨List.mem_cons_of_mem _
          (List.mem_append_right _ (List.mem_append_left _ hmem.1)),
        List.mem_cons_of_mem _
          (List.mem_append_right _ (List.mem_append_left _ hmem.2))⟩
    · exact List.mem_cons_of_mem _ (List.mem_append_right _
        (List.mem_append_right _ (List.mem_singleton.mpr rfl)))
  · intro h hmem hmem'
    have hlt := hb h hmem
    obtain ⟨h1, h2, h3, h4⟩ := rebuildSwapchain_chain_fields s m
    have hge : s.nextHandle ≤ h := by
      rw [chainHandles, h1, h2, h3, h4] at hmem'
      rcases List.mem_cons.mp hmem' with rfl | hx
      · omega
      rcases List.mem_append.mp hx with hx | hx
      · rcases List.mem_append.mp hx with hx | hx <;>
          (obtain ⟨i, _, rfl⟩ := List.mem_map.mp hx
           omega)
      · rcases List.mem_append.mp hx with hx | hx <;>
          (obtain ⟨i, _, rfl⟩ := List.mem_map.mp hx
           omega)
    omega

/-- Witness for C9 at the initialized renderer (all of whose chain
handles are below its fresh-handle counter): its old chain handle is
gone from the rebuilt state, its image view 0 is destroyed in the loop
before the chain-handle destruction, and that destruction is in the
rebuild's creation-free prefix.  -/
theorem c9_chain_teardown_witness :
    initializedRenderer.swapchain ∉
      chainHandles (rebuildSwapchain initializedRenderer 2).2 ∧
    (initializedRenderer.renderFinishedSemaphores.getD 0 0) ∉
      chainHandles (rebuildSwapchain initializedRenderer 2).2 := by
  have h := c9_chain_teardown initializedRenderer 2 2 (by decide)
  exact ⟨h.2.2 initializedRenderer.swapchain (by decide),
    h.2.2 (initializedRenderer.renderFinishedSemaphores.getD 0 0) (by decide)⟩

end LSV
